import Mathlib

/-!
Verification development for the OSINT-aggregator repository.

This file gives a shallow embedding, in Lean 4, of the source-query
orchestration core of the repository: the source catalog lookup
(`getSourcesForType`, `getAllSources`, `findSourceById`), the single-source
query path with cache and in-flight rate limiting
(`SourceManager.querySource` together with
`performRealIntelligenceGathering`), the TTL cache helper
(`OSINTCollector.getCached`), the per-service rate limiter
(`OSINTCollector.rateLimit`), the retry loop
(`OSINTCollector.fetchWithRetry`), the aggregation fan-in
(`performOSINTSearch` / `performRealIntelligenceGathering` of the
aggregator classes, whose result-processing loop is `processResult`
here), and the intelligence validator (`validateIntelligence`).

Asynchrony is modelled by sequential execution: each function that awaits
an external handler takes the handler outcome as an explicit parameter
(`Except String EnvelopeData`), and wall-clock time is threaded as an
explicit `now : Nat` (milliseconds).  Waits are not performed but
reported: `querySource` and `rateLimit` return the number of milliseconds
the code would sleep before dispatching, so dispatch instants are
`now + wait`.
-/

/-- Payload produced by a source handler.  In the JavaScript source the
payload is an open object; the fields used by the orchestration core are
`found`, `error`, `query` and `collectionMethod` (the last three may be
absent, hence `Option`). -/
structure EnvelopeData where
  found : Bool
  error : Option String
  payloadQuery : Option String
  collectionMethod : Option String
deriving DecidableEq, Repr

/-- Normalized result of one source query, as built by
`performRealIntelligenceGathering` (src/unnamed/part_001, lines 179-209).
`timestamp` is milliseconds (the source stores an ISO string of the
current instant). -/
structure ResultEnvelope where
  sourceId : String
  sourceName : String
  query : String
  searchType : String
  confidence : Nat
  timestamp : Nat
  data : EnvelopeData
  success : Bool
  dataType : Option String
deriving DecidableEq, Repr

/-- Source descriptor from the catalog document (id, name, confidence,
enabled flag, optional rate-limit interval in milliseconds). -/
structure Source where
  id : String
  name : String
  confidence : Nat
  enabled : Bool
  rateLimit : Option Nat
deriving DecidableEq, Repr

/-- One category block of the catalog document (`categories` in
sources.json): a display name and a list of sources. -/
structure Category where
  name : String
  sources : List Source
deriving DecidableEq, Repr

/-- The catalog document: categories keyed by search type. -/
structure Catalog where
  categories : List (String × Category)
deriving DecidableEq, Repr

/-- Embedding of `getSourcesForType` of SourceManager (src/unnamed/part_001, lines
59-72): the enabled sources of the requested category, or `[]` when the
category is missing. -/
def getSourcesForType (c : Catalog) (searchType : String) : List Source :=
  match c.categories.lookup searchType with
  | none => []
  | some category => category.sources.filter (fun s => s.enabled)

/-- Embedding of `getAllSources` of SourceManager (src/unnamed/part_001, lines 74-85):
all enabled sources across categories, in category order. -/
def getAllSources (c : Catalog) : List Source :=
  c.categories.flatMap (fun p => p.2.sources.filter (fun s => s.enabled))

/-- Embedding of `findSourceById` of SourceManager (src/unnamed/part_001, lines
226-229): the first enabled source with the given id. -/
def findSourceById (c : Catalog) (sourceId : String) : Option Source :=
  (getAllSources c).find? (fun s => s.id == sourceId)

/-- Mutable state of a SourceManager instance: the loaded catalog, the
result cache (a JS `Map` keyed by the string `sourceId:query`, modelled
as an association list where an overwrite prepends), and the
`activeRequests` set. -/
structure SMState where
  catalog : Catalog
  cache : List (String × ResultEnvelope)
  activeRequests : List String
deriving DecidableEq, Repr

/-- Embedding of `performRealIntelligenceGathering` of SourceManager
(src/unnamed/part_001, lines 145-211): dispatches to the handler and
wraps the outcome in an envelope; a handler failure is caught and turned
into a `success := false` envelope whose `data.error` is the failure
message (with `collectionMethod` set to the string used by the error
branch). -/
def performRealIntelligenceGathering (source : Source) (query searchType : String)
    (now : Nat) (handler : Except String EnvelopeData) : ResultEnvelope :=
  match handler with
  | Except.ok d =>
      { sourceId := source.id
        sourceName := source.name
        query := query
        searchType := searchType
        confidence := source.confidence
        timestamp := now
        data := d
        success := true
        dataType := some "real_intelligence" }
  | Except.error msg =>
      { sourceId := source.id
        sourceName := source.name
        query := query
        searchType := searchType
        confidence := source.confidence
        timestamp := now
        data :=
          { found := false
            error := some msg
            payloadQuery := some query
            collectionMethod := some "Error handling" }
        success := false
        dataType := some "error" }

/-- JavaScript `source.rateLimit || 1000`: the default applies when the
field is absent or zero (falsy). -/
def jsOrDefault (o : Option Nat) (d : Nat) : Nat :=
  match o with
  | some v => if v == 0 then d else v
  | none => d

/-- Embedding of `querySource` of SourceManager (src/components/source-manager.js,
lines 130-163; src/unnamed/part_001, lines 110-143 is identical except
for the in-flight delay amount).  Throws when the id names no enabled
source; otherwise returns the cached envelope on a cache hit, and on a
miss waits (only when a request to the same source is already in flight)
and dispatches to the handler, caching the envelope.  The returned tuple
is (envelope, new state, handler invoked?, milliseconds waited before
dispatch); the dispatch instant is `now + wait`.  Since execution is
sequential here, the `activeRequests` add/delete pair of the
`try`/`finally` block nets to no change. -/
def querySource (st : SMState) (now : Nat) (sourceId query searchType : String)
    (handler : Except String EnvelopeData) :
    Except String (ResultEnvelope × SMState × Bool × Nat) :=
  match findSourceById st.catalog sourceId with
  | none => Except.error ("Source not found: " ++ sourceId)
  | some source =>
    let cacheKey := sourceId ++ ":" ++ query
    match st.cache.lookup cacheKey with
    | some cached => Except.ok (cached, st, false, 0)
    | none =>
      let wait := if st.activeRequests.contains sourceId
        then jsOrDefault source.rateLimit 1000 else 0
      let result := performRealIntelligenceGathering source query searchType
        (now + wait) handler
      Except.ok (result, { st with cache := (cacheKey, result) :: st.cache },
        true, wait)

/-- Envelope component of a `querySource` result. -/
def qsEnv (r : Except String (ResultEnvelope × SMState × Bool × Nat)) :
    Option ResultEnvelope :=
  match r with
  | Except.ok (env, _, _, _) => some env
  | Except.error _ => none

/-- State component of a `querySource` result. -/
def qsState (r : Except String (ResultEnvelope × SMState × Bool × Nat)) :
    Option SMState :=
  match r with
  | Except.ok (_, st, _, _) => some st
  | Except.error _ => none

/-- Handler-invocation flag of a `querySource` result. -/
def qsInvoked (r : Except String (ResultEnvelope × SMState × Bool × Nat)) :
    Option Bool :=
  match r with
  | Except.ok (_, _, inv, _) => some inv
  | Except.error _ => none

/-- Wait (milliseconds slept before dispatch) of a `querySource` result. -/
def qsWait (r : Except String (ResultEnvelope × SMState × Bool × Nat)) :
    Option Nat :=
  match r with
  | Except.ok (_, _, _, w) => some w
  | Except.error _ => none

/-- True when an `Except` result is a raised error. -/
def isErr (r : Except String (ResultEnvelope × SMState × Bool × Nat)) : Bool :=
  match r with
  | Except.error _ => true
  | Except.ok _ => false

/-- Summary block of an aggregated report. -/
@[ext]
structure Summary where
  totalSources : Nat
  successfulSources : Nat
  failedSources : Nat
  dataFound : Bool
deriving DecidableEq, Repr

/-- Report structure `currentResults` as built by `performOSINTSearch`
(src/unnamed/part_002, lines 150-161) and by
`performRealIntelligenceGathering` of the aggregator (src/script.js,
lines 408-419). -/
structure AggregatedReport where
  query : String
  searchType : String
  timestamp : Nat
  sources : List ResultEnvelope
  summary : Summary
deriving DecidableEq, Repr

/-- One element of the `Promise.allSettled` result array: a fulfilled
envelope or a rejection reason. -/
inductive SettledResult where
  | fulfilled (v : ResultEnvelope)
  | rejected (reason : String)
deriving DecidableEq, Repr

/-- The body of the `results.forEach` loop of `performOSINTSearch`
(src/unnamed/part_002, lines 174-185) and of
`performRealIntelligenceGathering` (src/script.js, lines 434-445):
a fulfilled successful envelope is appended to `sources`,
`successfulSources` is incremented and `dataFound` is or-ed with
`data.found`; every other outcome only increments `failedSources`. -/
def processResult (r : AggregatedReport) (o : SettledResult) : AggregatedReport :=
  match o with
  | SettledResult.fulfilled v =>
    if v.success then
      { r with
        sources := r.sources ++ [v]
        summary := { r.summary with
          successfulSources := r.summary.successfulSources + 1
          dataFound := r.summary.dataFound || v.data.found } }
    else
      { r with summary := { r.summary with
          failedSources := r.summary.failedSources + 1 } }
  | SettledResult.rejected _ =>
      { r with summary := { r.summary with
          failedSources := r.summary.failedSources + 1 } }

/-- Result of one aggregation run: either the early error display for an
empty source list (`showError`, no report built) or the finished report. -/
inductive SearchOutcome where
  | noSources (message : String)
  | report (r : AggregatedReport)
deriving DecidableEq, Repr

/-- The empty report initialized before fan-out (src/unnamed/part_002,
lines 150-161). -/
def initialReport (query searchType : String) (now total : Nat) : AggregatedReport :=
  { query := query
    searchType := searchType
    timestamp := now
    sources := []
    summary :=
      { totalSources := total
        successfulSources := 0
        failedSources := 0
        dataFound := false } }

/-- Embedding of `performOSINTSearch` of the aggregator (src/unnamed/part_002, lines
141-191; `performRealIntelligenceGathering` in src/script.js, lines
399-451, is the same fan-in with staggered dispatch and a different
error-message wording).  The settled outcomes of the concurrent source
queries are passed as the `outcomes` list; when the category has no
eligible sources the function shows an error and returns without
building a report. -/
def performOSINTSearch (c : Catalog) (query searchType : String) (now : Nat)
    (outcomes : List SettledResult) : SearchOutcome :=
  let availableSources := getSourcesForType c searchType
  if availableSources.length = 0 then
    SearchOutcome.noSources ("No sources available for " ++ searchType ++ " searches")
  else
    SearchOutcome.report
      (outcomes.foldl processResult
        (initialReport query searchType now availableSources.length))

/-- Summary of an aggregation outcome, when a report was built. -/
def summaryOf (o : SearchOutcome) : Option Summary :=
  match o with
  | SearchOutcome.noSources _ => none
  | SearchOutcome.report r => some r.summary

/-- A cache entry of OSINTCollector (`setCached`, src/unnamed/part_000,
lines 451-456): the stored payload and its insertion instant. -/
structure CacheEntry (α : Type) where
  data : α
  timestamp : Nat
deriving DecidableEq, Repr

/-- Embedding of `getCached` of OSINTCollector (src/unnamed/part_000, lines 443-449):
an entry is returned only while fewer than 3600000 ms (one hour) elapsed
since insertion; otherwise the read behaves as a miss. -/
def getCached {α : Type} (cache : List (String × CacheEntry α)) (key : String)
    (now : Nat) : Option α :=
  match cache.lookup key with
  | some cached => if now - cached.timestamp < 3600000 then some cached.data else none
  | none => none

/-- Embedding of `rateLimit` of OSINTCollector (src/unnamed/part_000, lines 425-436).
The per-service last-grant map is a function to `Option Nat` (a JS `Map`
read through `|| 0`).  Returns the grant instant (`now` plus the sleep
the code performs) and the updated map, which records the grant instant
for this service only. -/
def rateLimit (limits : String → Option Nat) (service : String)
    (minInterval now : Nat) : Nat × (String → Option Nat) :=
  let lastRequest := (limits service).getD 0
  let timeSinceLastRequest := now - lastRequest
  let grant := if timeSinceLastRequest < minInterval
    then now + (minInterval - timeSinceLastRequest) else now
  (grant, fun s => if s = service then some grant else limits s)

/-- Loop body of `fetchWithRetry` (src/unnamed/part_000, lines 407-423),
with the loop bound made structural via the remaining-iteration count
`fuel` (the caller passes `fuel := maxRetries - i`, so `fuel = 0` is the
loop falling through, which in the source returns `undefined` — hence
the `Option`).  `f i` is the outcome of the `(i+1)`-th invocation of the
wrapped fetch.  Returns (result, number of invocations, total
milliseconds slept between attempts); each failed non-final attempt `i`
sleeps `1000 * (i + 1)`. -/
def retryGo {α : Type} (f : Nat → Except String α) (maxRetries i fuel : Nat) :
    Option (Except String α) × Nat × Nat :=
  match fuel with
  | 0 => (none, 0, 0)
  | Nat.succ fuel2 =>
    match f i with
    | Except.ok a => (some (Except.ok a), 1, 0)
    | Except.error e =>
      if i = maxRetries - 1 then (some (Except.error e), 1, 0)
      else
        let rest := retryGo f maxRetries (i + 1) fuel2
        (rest.1, rest.2.1 + 1, rest.2.2 + 1000 * (i + 1))

/-- Embedding of `fetchWithRetry` of OSINTCollector (src/unnamed/part_000, lines
407-423): up to `maxRetries` attempts, linear backoff of
`1000 * (i + 1)` ms after failed attempt `i`, the last failure
re-raised. -/
def fetchWithRetry {α : Type} (f : Nat → Except String α) (maxRetries : Nat) :
    Option (Except String α) × Nat × Nat :=
  retryGo f maxRetries 0 maxRetries

/-- A JavaScript value, as far as `validateIntelligence` can observe it. -/
inductive JSValue where
  | vNull
  | vUndefined
  | vBool (b : Bool)
  | vNum (n : Int)
  | vStr (s : String)
  | vObj (fields : List (String × JSValue))

/-- JavaScript truthiness (`!x` negated). -/
def truthy (v : JSValue) : Bool :=
  match v with
  | JSValue.vNull => false
  | JSValue.vUndefined => false
  | JSValue.vBool b => b
  | JSValue.vNum n => n != 0
  | JSValue.vStr s => s != ""
  | JSValue.vObj _ => true

/-- Whether `typeof v` is the string `object` (true for `null` and for
every object, false for booleans, numbers, strings and `undefined`). -/
def typeofIsObject (v : JSValue) : Bool :=
  match v with
  | JSValue.vNull => true
  | JSValue.vObj _ => true
  | _ => false

/-- Whether `v` is an actual (non-null) object value. -/
def isObjectValue (v : JSValue) : Bool :=
  match v with
  | JSValue.vObj _ => true
  | _ => false

/-- Property read on an object; an absent property reads as `undefined`. -/
def getField (v : JSValue) (name : String) : JSValue :=
  match v with
  | JSValue.vObj fields => (fields.lookup name).getD JSValue.vUndefined
  | _ => JSValue.vUndefined

/-- Result of `validateIntelligence`. -/
structure ValidationResult where
  valid : Bool
  reason : Option String
deriving DecidableEq, Repr

/-- Embedding of `validateIntelligence` of SourceManager (src/unnamed/part_001, lines
281-291): rejects falsy or non-object data, then rejects data whose
`collectionMethod` property is falsy, and accepts everything else. -/
def validateIntelligence (data : JSValue) : ValidationResult :=
  if !truthy data || !typeofIsObject data then
    { valid := false, reason := some "Invalid data structure" }
  else if !truthy (getField data "collectionMethod") then
    { valid := false, reason := some "Missing collection method" }
  else
    { valid := true, reason := none }

/-- Whether a settled outcome is a fulfilled successful envelope (the
condition of the first branch of the result-processing loop). -/
def isSuccessOutcome (o : SettledResult) : Bool :=
  match o with
  | SettledResult.fulfilled v => v.success
  | SettledResult.rejected _ => false

/-- Whether a settled outcome is a fulfilled successful envelope whose
payload has `found` set (the condition under which the loop sets
`dataFound`). -/
def isFoundOutcome (o : SettledResult) : Bool :=
  match o with
  | SettledResult.fulfilled v => v.success && v.data.found
  | SettledResult.rejected _ => false

/-- The envelope a settled outcome contributes to `sources`, if any. -/
def successEnvelope (o : SettledResult) : Option ResultEnvelope :=
  match o with
  | SettledResult.fulfilled v => if v.success then some v else none
  | SettledResult.rejected _ => none

/-- Handler payload used by the concrete scenarios below. -/
def demoData : EnvelopeData :=
  { found := true
    error := none
    payloadQuery := some "tgt"
    collectionMethod := some "DNS over HTTPS" }

/-- Handler payload with nothing found, for the concrete scenarios. -/
def demoDataNotFound : EnvelopeData :=
  { found := false
    error := none
    payloadQuery := some "tgt"
    collectionMethod := some "DNS over HTTPS" }

/-- A single enabled catalog source used by the concrete scenarios. -/
def demoSource : Source :=
  { id := "s1"
    name := "Demo Intelligence"
    confidence := 80
    enabled := true
    rateLimit := some 1000 }

/-- Catalog with one enabled email source. -/
def demoCatalog : Catalog :=
  { categories := [("email", { name := "Email Intelligence", sources := [demoSource] })] }

/-- The fallback catalog (`getFallbackSources`, src/unnamed/part_001,
lines 42-57): four categories, each with zero sources. -/
def fallbackCatalog : Catalog :=
  { categories :=
      [("email", { name := "Email Intelligence", sources := [] }),
       ("domain", { name := "Domain Intelligence", sources := [] }),
       ("username", { name := "Username Intelligence", sources := [] }),
       ("ip", { name := "IP Intelligence", sources := [] })] }

/-- Fresh SourceManager state over the one-source catalog. -/
def demoState : SMState :=
  { catalog := demoCatalog, cache := [], activeRequests := [] }

/-- The report built when the single outcome of a one-source run is a
rejection: `sources` stays empty while `failedSources` is 1. -/
def rejectedOnlyReport : AggregatedReport :=
  { query := "a@b.com"
    searchType := "email"
    timestamp := 0
    sources := []
    summary :=
      { totalSources := 1
        successfulSources := 0
        failedSources := 1
        dataFound := false } }

/-- A successful envelope with data found, as a settled outcome input. -/
def foundEnvelope : ResultEnvelope :=
  performRealIntelligenceGathering demoSource "a@b.com" "email" 0 (Except.ok demoData)

/-- The report built when the single outcome of a one-source run is the
fulfilled successful envelope `foundEnvelope`. -/
def foundOnlyReport : AggregatedReport :=
  { query := "a@b.com"
    searchType := "email"
    timestamp := 0
    sources := [foundEnvelope]
    summary :=
      { totalSources := 1
        successfulSources := 1
        failedSources := 0
        dataFound := true } }

/-- Envelope cached by the stale-cache scenario, created at instant 0. -/
def staleEnvelope : ResultEnvelope :=
  performRealIntelligenceGathering demoSource "tgt" "email" 0 (Except.ok demoData)

/-- SourceManager state holding `staleEnvelope` in the cache under the
key of source `s1` and query `tgt`. -/
def staleState : SMState :=
  { catalog := demoCatalog
    cache := [("s1:tgt", staleEnvelope)]
    activeRequests := [] }

/-- Envelope produced by the first call of the sequential-dispatch
scenario (query `a`, dispatched at instant 0). -/
def seqEnvelopeA : ResultEnvelope :=
  performRealIntelligenceGathering demoSource "a" "email" 0 (Except.ok demoData)

/-- State after the first call of the sequential-dispatch scenario. -/
def seqStateA : SMState :=
  { catalog := demoCatalog
    cache := [("s1:a", seqEnvelopeA)]
    activeRequests := [] }

/-- Envelope produced by the second call of the sequential-dispatch
scenario (query `b`, dispatched at instant 5). -/
def seqEnvelopeB : ResultEnvelope :=
  performRealIntelligenceGathering demoSource "b" "email" 5 (Except.ok demoData)

/-- State after the second call of the sequential-dispatch scenario. -/
def seqStateB : SMState :=
  { catalog := demoCatalog
    cache := [("s1:b", seqEnvelopeB), ("s1:a", seqEnvelopeA)]
    activeRequests := [] }

/-- A concrete per-service grant map for the rate-limiter scenario: the
service `dns` was last granted at instant 400. -/
def demoLimits : String → Option Nat :=
  fun s => if s = "dns" then some 400 else none

theorem foldl_processResult_totalSources (l : List SettledResult) (r : AggregatedReport) :
    (l.foldl processResult r).summary.totalSources = r.summary.totalSources := by
  induction l generalizing r with
  | nil => rfl
  | cons o l ih =>
    rw [List.foldl_cons, ih]
    cases o with
    | fulfilled v =>
      by_cases hv : v.success <;> simp [processResult, hv]
    | rejected msg => simp [processResult]

theorem foldl_processResult_successful (l : List SettledResult) (r : AggregatedReport) :
    (l.foldl processResult r).summary.successfulSources
      = r.summary.successfulSources + l.countP isSuccessOutcome := by
  induction l generalizing r with
  | nil => rfl
  | cons o l ih =>
    rw [List.foldl_cons, ih, List.countP_cons]
    cases o with
    | fulfilled v =>
      by_cases hv : v.success <;> (simp [processResult, isSuccessOutcome, hv]; try omega)
    | rejected msg => simp [processResult, isSuccessOutcome]

theorem foldl_processResult_failed (l : List SettledResult) (r : AggregatedReport) :
    (l.foldl processResult r).summary.failedSources
      = r.summary.failedSources + l.countP (fun o => !isSuccessOutcome o) := by
  induction l generalizing r with
  | nil => rfl
  | cons o l ih =>
    rw [List.foldl_cons, ih, List.countP_cons]
    cases o with
    | fulfilled v =>
      by_cases hv : v.success <;> (simp [processResult, isSuccessOutcome, hv]; try omega)
    | rejected msg =>
      simp [processResult, isSuccessOutcome]
      omega

theorem foldl_processResult_dataFound (l : List SettledResult) (r : AggregatedReport) :
    (l.foldl processResult r).summary.dataFound
      = (r.summary.dataFound || l.any isFoundOutcome) := by
  induction l generalizing r with
  | nil => simp
  | cons o l ih =>
    rw [List.foldl_cons, ih, List.any_cons]
    cases o with
    | fulfilled v =>
      by_cases hv : v.success <;>
        simp [processResult, isFoundOutcome, hv, Bool.or_assoc]
    | rejected msg => simp [processResult, isFoundOutcome]

theorem foldl_processResult_sources (l : List SettledResult) (r : AggregatedReport) :
    (l.foldl processResult r).sources
      = r.sources ++ l.filterMap successEnvelope := by
  induction l generalizing r with
  | nil => simp
  | cons o l ih =>
    rw [List.foldl_cons, ih, List.filterMap_cons]
    cases o with
    | fulfilled v =>
      by_cases hv : v.success <;> simp [processResult, successEnvelope, hv]
    | rejected msg => simp [processResult, successEnvelope]

theorem length_filterMap_successEnvelope (l : List SettledResult) :
    (l.filterMap successEnvelope).length = l.countP isSuccessOutcome := by
  induction l with
  | nil => rfl
  | cons o l ih =>
    rw [List.filterMap_cons, List.countP_cons]
    cases o with
    | fulfilled v =>
      by_cases hv : v.success <;> simp [successEnvelope, isSuccessOutcome, hv, ih]
    | rejected msg => simp [successEnvelope, isSuccessOutcome, ih]

theorem any_filterMap_successEnvelope (l : List SettledResult) :
    (l.filterMap successEnvelope).any (fun e => e.success && e.data.found)
      = l.any isFoundOutcome := by
  induction l with
  | nil => rfl
  | cons o l ih =>
    rw [List.filterMap_cons, List.any_cons]
    cases o with
    | fulfilled v =>
      by_cases hv : v.success <;> simp [successEnvelope, isFoundOutcome, hv, ih]
    | rejected msg => simp [successEnvelope, isFoundOutcome, ih]

theorem countP_not_add (l : List SettledResult) :
    l.countP isSuccessOutcome + l.countP (fun o => !isSuccessOutcome o) = l.length := by
  induction l with
  | nil => rfl
  | cons o l ih =>
    rw [List.countP_cons, List.countP_cons, List.length_cons]
    by_cases ho : isSuccessOutcome o <;> simp [ho] <;> omega

theorem any_eq_of_perm (p : SettledResult → Bool) {l1 l2 : List SettledResult}
    (h : l1.Perm l2) : l1.any p = l2.any p := by
  rw [Bool.eq_iff_iff, List.any_eq_true, List.any_eq_true]
  constructor
  · rintro ⟨x, hx, hp⟩
    exact ⟨x, h.mem_iff.mp hx, hp⟩
  · rintro ⟨x, hx, hp⟩
    exact ⟨x, h.mem_iff.mpr hx, hp⟩

/-- C1 counterexample: a one-source run whose only settled outcome is a
rejection yields a report with `successfulSources + failedSources = 1`
while `sources` is empty — the claimed partition equality
`successfulSources + failedSources = length sources` is false, because
the processing loop appends only successful envelopes to `sources`. -/
theorem aggregation_partition_counterexample :
    performOSINTSearch demoCatalog "a@b.com" "email" 0
        [SettledResult.rejected "network error"]
      = SearchOutcome.report rejectedOnlyReport
    ∧ rejectedOnlyReport.summary.successfulSources
        + rejectedOnlyReport.summary.failedSources = 1
    ∧ rejectedOnlyReport.sources.length = 0
    ∧ (rejectedOnlyReport.summary.successfulSources
        + rejectedOnlyReport.summary.failedSources
        == rejectedOnlyReport.sources.length) = false := by
  decide

/-- C1 (amended): for every report R built by an aggregation run,
`R.sources` holds exactly the successful envelopes, so
`R.summary.successfulSources = length R.sources`; the partition
`successfulSources + failedSources` counts the settled outcomes, and
equals `R.summary.totalSources` when one outcome was collected per
eligible source. -/
theorem aggregation_summary_counts (c : Catalog) (q t : String) (now : Nat)
    (outs : List SettledResult) (R : AggregatedReport)
    (h : performOSINTSearch c q t now outs = SearchOutcome.report R) :
    R.summary.successfulSources = R.sources.length
    ∧ R.summary.successfulSources + R.summary.failedSources = outs.length
    ∧ (outs.length = (getSourcesForType c t).length →
        R.summary.successfulSources + R.summary.failedSources
          = R.summary.totalSources) := by
  simp only [performOSINTSearch] at h
  split at h
  · simp at h
  · injection h with hR
    subst hR
    refine ⟨?_, ?_, ?_⟩
    · rw [foldl_processResult_successful, foldl_processResult_sources,
        List.length_append, length_filterMap_successEnvelope]
      simp [initialReport]
    · rw [foldl_processResult_successful, foldl_processResult_failed]
      have := countP_not_add outs
      simp only [initialReport]
      omega
    · intro hl
      rw [foldl_processResult_successful, foldl_processResult_failed,
        foldl_processResult_totalSources]
      have := countP_not_add outs
      simp only [initialReport]
      omega

/-- C1 witness: the amended counting facts evaluated on the concrete
one-rejection run. -/
theorem aggregation_summary_counts_witness :
    rejectedOnlyReport.summary.successfulSources = rejectedOnlyReport.sources.length
    ∧ rejectedOnlyReport.summary.successfulSources
        + rejectedOnlyReport.summary.failedSources = 1
    ∧ rejectedOnlyReport.summary.successfulSources
        + rejectedOnlyReport.summary.failedSources
        = rejectedOnlyReport.summary.totalSources := by
  have h := aggregation_summary_counts demoCatalog "a@b.com" "email" 0
    [SettledResult.rejected "network error"] rejectedOnlyReport (by decide)
  exact ⟨h.1, h.2.1, h.2.2 (by decide)⟩

/-- C2 counterexample: against the fallback catalog (empty email
category) the run returns the early `showError` outcome, not a report —
in particular no report with `totalSources = 0` is produced. -/
theorem emptyCategory_counterexample :
    performOSINTSearch fallbackCatalog "nobody@nowhere.tld" "email" 0 []
      = SearchOutcome.noSources "No sources available for email searches"
    ∧ summaryOf (performOSINTSearch fallbackCatalog "nobody@nowhere.tld" "email" 0 [])
      = none := by
  decide

/-- C2 (amended): when the category has no eligible source the run
completes without raising, displays the no-sources error message, and
builds no report at all (the summary is never constructed). -/
theorem emptyCategory_noSources (c : Catalog) (q t : String) (now : Nat)
    (outs : List SettledResult) (h : getSourcesForType c t = []) :
    performOSINTSearch c q t now outs
      = SearchOutcome.noSources ("No sources available for " ++ t ++ " searches") := by
  simp [performOSINTSearch, h]

/-- C2 witness: the amended behavior on the concrete empty-category run. -/
theorem emptyCategory_noSources_witness :
    performOSINTSearch fallbackCatalog "nobody@nowhere.tld" "email" 5 []
      = SearchOutcome.noSources ("No sources available for " ++ "email" ++ " searches") :=
  emptyCategory_noSources fallbackCatalog "nobody@nowhere.tld" "email" 5 [] (by decide)

/-- C7: for every report R built by an aggregation run,
`R.summary.dataFound` is true exactly when some envelope of `R.sources`
is successful with `data.found` true. -/
theorem report_dataFound_iff (c : Catalog) (q t : String) (now : Nat)
    (outs : List SettledResult) (R : AggregatedReport)
    (h : performOSINTSearch c q t now outs = SearchOutcome.report R) :
    (R.summary.dataFound = true
      ↔ ∃ e ∈ R.sources, e.success = true ∧ e.data.found = true) := by
  simp only [performOSINTSearch] at h
  split at h
  · simp at h
  · injection h with hR
    subst hR
    rw [foldl_processResult_dataFound, foldl_processResult_sources]
    simp only [initialReport, Bool.false_or, List.nil_append]
    rw [← any_filterMap_successEnvelope, List.any_eq_true]
    simp [Bool.and_eq_true]

/-- C7 witness: the equivalence evaluated on a concrete run with one
successful found envelope. -/
theorem report_dataFound_iff_witness :
    performOSINTSearch demoCatalog "a@b.com" "email" 0
        [SettledResult.fulfilled foundEnvelope]
      = SearchOutcome.report foundOnlyReport
    ∧ (foundOnlyReport.summary.dataFound = true
        ↔ ∃ e ∈ foundOnlyReport.sources, e.success = true ∧ e.data.found = true) :=
  ⟨by decide, report_dataFound_iff demoCatalog "a@b.com" "email" 0
    [SettledResult.fulfilled foundEnvelope] foundOnlyReport (by decide)⟩

/-- C9: the summary of an aggregation run depends only on the multiset
of settled outcomes — permuting the collection order leaves
`totalSources`, `successfulSources`, `failedSources` and `dataFound`
unchanged. -/
theorem summary_permutation_invariant (c : Catalog) (q t : String) (now : Nat)
    (outs1 outs2 : List SettledResult) (hp : outs1.Perm outs2) :
    summaryOf (performOSINTSearch c q t now outs1)
      = summaryOf (performOSINTSearch c q t now outs2) := by
  simp only [performOSINTSearch, summaryOf]
  by_cases hlen : (getSourcesForType c t).length = 0
  · simp [hlen]
  · simp only [hlen, if_false]
    refine congrArg some ?_
    apply Summary.ext
    · rw [foldl_processResult_totalSources, foldl_processResult_totalSources]
    · rw [foldl_processResult_successful, foldl_processResult_successful,
        List.Perm.countP_eq isSuccessOutcome hp]
    · rw [foldl_processResult_failed, foldl_processResult_failed,
        List.Perm.countP_eq (fun o => !isSuccessOutcome o) hp]
    · rw [foldl_processResult_dataFound, foldl_processResult_dataFound,
        any_eq_of_perm isFoundOutcome hp]

/-- C9 witness: swapping the arrival order of a success and a rejection
leaves the concrete summary unchanged. -/
theorem summary_permutation_invariant_witness :
    summaryOf (performOSINTSearch demoCatalog "a@b.com" "email" 0
        [SettledResult.fulfilled foundEnvelope, SettledResult.rejected "network error"])
      = summaryOf (performOSINTSearch demoCatalog "a@b.com" "email" 0
        [SettledResult.rejected "network error", SettledResult.fulfilled foundEnvelope]) :=
  summary_permutation_invariant demoCatalog "a@b.com" "email" 0 _ _
    (List.Perm.swap (SettledResult.rejected "network error")
      (SettledResult.fulfilled foundEnvelope) [])

/-- C5: `querySource` raises exactly when the source id names no known
enabled source; for a known source any handler failure is converted into
a returned envelope with `success = false` and `data.error` set to the
failure message. -/
theorem querySource_error_iff (st : SMState) (now : Nat) (sid q t : String)
    (h : Except String EnvelopeData) :
    (isErr (querySource st now sid q t h) = true
      ↔ findSourceById st.catalog sid = none)
    ∧ ∀ (src : Source) (time : Nat) (msg : String),
        (performRealIntelligenceGathering src q t time (Except.error msg)).success = false
        ∧ (performRealIntelligenceGathering src q t time (Except.error msg)).data.error
            = some msg := by
  constructor
  · cases hf : findSourceById st.catalog sid with
    | none => simp [querySource, hf, isErr]
    | some src =>
      cases hc : st.cache.lookup (sid ++ ":" ++ q) with
      | none => simp [querySource, hf, hc, isErr]
      | some cached => simp [querySource, hf, hc, isErr]
  · intro src time msg
    simp [performRealIntelligenceGathering]

/-- C5 witness: an unknown id raises, and a failing handler is converted
into a failed envelope carrying the failure message. -/
theorem querySource_error_iff_witness :
    isErr (querySource demoState 0 "missing" "tgt" "email" (Except.ok demoData)) = true
    ∧ (performRealIntelligenceGathering demoSource "tgt" "email" 0
        (Except.error "boom")).success = false
    ∧ (performRealIntelligenceGathering demoSource "tgt" "email" 0
        (Except.error "boom")).data.error = some "boom" := by
  have h := querySource_error_iff demoState 0 "missing" "tgt" "email" (Except.ok demoData)
  exact ⟨h.1.mpr (by decide), (h.2 demoSource 0 "boom").1, (h.2 demoSource 0 "boom").2⟩

/-- C8: a repeated `querySource` for the same (sourceId, query) pair,
at any later instant and with any handler, returns the identical
envelope with the state unchanged, the handler not invoked and no
rate-limit wait — the second call is served entirely from the cache. -/
theorem querySource_cache_idempotent (st : SMState) (now now2 : Nat)
    (sid q t : String) (h1 h2 : Except String EnvelopeData)
    (env : ResultEnvelope) (st2 : SMState) (inv : Bool) (w : Nat)
    (hq : querySource st now sid q t h1 = Except.ok (env, st2, inv, w)) :
    querySource st2 now2 sid q t h2 = Except.ok (env, st2, false, 0) := by
  cases hf : findSourceById st.catalog sid with
  | none => simp [querySource, hf] at hq
  | some src =>
    cases hc : st.cache.lookup (sid ++ ":" ++ q) with
    | some cached =>
      simp [querySource, hf, hc] at hq
      obtain ⟨rfl, rfl, rfl, rfl⟩ := hq
      simp [querySource, hf, hc]
    | none =>
      simp [querySource, hf, hc] at hq
      obtain ⟨rfl, rfl, rfl, rfl⟩ := hq
      simp [querySource, hf, List.lookup]

/-- C8 witness: the second call for the cached (s1, tgt) pair returns
the envelope of the first call from the cache without invoking the handler. -/
theorem querySource_cache_idempotent_witness :
    querySource staleState 99 "s1" "tgt" "email" (Except.ok demoDataNotFound)
      = Except.ok (staleEnvelope, staleState, false, 0) :=
  querySource_cache_idempotent demoState 0 99 "s1" "tgt" "email"
    (Except.ok demoData) (Except.ok demoDataNotFound) staleEnvelope staleState true 0
    (by rfl)

/-- C3 counterexample: a (sourceId, query) pair whose envelope was
created and cached at instant 0 is queried again two hours later
(7200000 ms, past the one-hour TTL): the stale cached envelope is
returned and the handler is NOT invoked — SourceManager.querySource
consults its cache without any TTL check. -/
theorem stale_cache_counterexample :
    querySource staleState 7200000 "s1" "tgt" "email" (Except.ok demoDataNotFound)
      = Except.ok (staleEnvelope, staleState, false, 0)
    ∧ staleEnvelope.timestamp = 0
    ∧ 3600000 ≤ 7200000 - staleEnvelope.timestamp := by
  exact ⟨rfl, rfl, by decide⟩

/-- C3 (amended): OSINTCollector.getCached does treat an entry as absent
once an hour has elapsed since its insertion, but the cache consulted by
SourceManager.querySource has no TTL — a cache hit is returned at any
instant, without re-invoking the handler. -/
theorem cache_ttl_expiry :
    (∀ (α : Type) (cache : List (String × CacheEntry α)) (key : String)
        (now : Nat) (e : CacheEntry α),
        cache.lookup key = some e → 3600000 ≤ now - e.timestamp →
        getCached cache key now = none)
    ∧ (∀ (st : SMState) (now : Nat) (sid q t : String)
        (h : Except String EnvelopeData) (env : ResultEnvelope) (src : Source),
        findSourceById st.catalog sid = some src →
        st.cache.lookup (sid ++ ":" ++ q) = some env →
        querySource st now sid q t h = Except.ok (env, st, false, 0)) := by
  constructor
  · intro α cache key now e hl ht
    simp only [getCached, hl]
    rw [if_neg (by omega)]
  · intro st now sid q t h env src hf hc
    simp [querySource, hf, hc]

/-- C3 witness: getCached misses on an entry inserted two hours ago, and
querySource returns the cached envelope at any instant. -/
theorem cache_ttl_expiry_witness :
    getCached [("k", CacheEntry.mk demoData 0)] "k" 7200000 = (none : Option EnvelopeData)
    ∧ querySource staleState 7200000 "s1" "tgt" "email" (Except.ok demoDataNotFound)
      = Except.ok (staleEnvelope, staleState, false, 0) := by
  have h := cache_ttl_expiry
  exact ⟨h.1 EnvelopeData [("k", CacheEntry.mk demoData 0)] "k" 7200000
      (CacheEntry.mk demoData 0) (by rfl) (by decide),
    h.2 staleState 7200000 "s1" "tgt" "email" (Except.ok demoDataNotFound)
      staleEnvelope demoSource (by rfl) (by rfl)⟩

/-- C4 counterexample: with source s1 carrying rateLimit = 1000 ms, two
sequential non-cached queries (queries a then b) are both dispatched
with zero wait — the first at instant 0, the second at instant 5, only
5 ms apart, far less than the 1000 ms interval; querySource only delays
when a request to the same source is concurrently in flight. -/
theorem sequential_dispatch_counterexample :
    querySource demoState 0 "s1" "a" "email" (Except.ok demoData)
      = Except.ok (seqEnvelopeA, seqStateA, true, 0)
    ∧ querySource seqStateA 5 "s1" "b" "email" (Except.ok demoData)
      = Except.ok (seqEnvelopeB, seqStateB, true, 0)
    ∧ demoSource.rateLimit = some 1000
    ∧ (5 + 0) - (0 + 0) < 1000 := by
  exact ⟨rfl, rfl, rfl, by decide⟩

/-- C4 (amended): OSINTCollector.rateLimit does guarantee per-service
spacing — the granted dispatch instant is at least the recorded last
grant plus the interval, never before `now`, the grant is recorded for
this service, and the records of other services are untouched.  In contrast,
SourceManager.querySource enforces no spacing between sequential
queries: with no request in flight the wait before dispatch is zero. -/
theorem rate_limit_spacing :
    (∀ (limits : String → Option Nat) (service : String) (minInterval now : Nat),
        (limits service).getD 0 ≤ now →
        (rateLimit limits service minInterval now).1
            ≥ (limits service).getD 0 + minInterval
        ∧ (rateLimit limits service minInterval now).1 ≥ now
        ∧ (rateLimit limits service minInterval now).2 service
            = some (rateLimit limits service minInterval now).1
        ∧ ∀ s : String, s ≠ service →
            (rateLimit limits service minInterval now).2 s = limits s)
    ∧ (∀ (st : SMState) (now : Nat) (sid q t : String)
        (h : Except String EnvelopeData) (src : Source),
        findSourceById st.catalog sid = some src →
        st.activeRequests = [] →
        st.cache.lookup (sid ++ ":" ++ q) = none →
        qsWait (querySource st now sid q t h) = some 0) := by
  constructor
  · intro limits service minInterval now hle
    simp only [rateLimit]
    by_cases hlt : now - (limits service).getD 0 < minInterval
    · simp only [if_pos hlt]
      refine ⟨by omega, by omega, by simp, ?_⟩
      intro s hs
      simp [hs]
    · simp only [if_neg hlt]
      refine ⟨by omega, by omega, by simp, ?_⟩
      intro s hs
      simp [hs]
  · intro st now sid q t h src hf hact hc
    simp [querySource, qsWait, hf, hc, hact]

/-- C4 witness: the rate limiter grants dns at least 100 ms after its
last grant at 400, leaves the ip record untouched, and querySource
dispatches with zero wait when nothing is in flight. -/
theorem rate_limit_spacing_witness :
    (rateLimit demoLimits "dns" 100 450).1 ≥ (demoLimits "dns").getD 0 + 100
    ∧ (rateLimit demoLimits "dns" 100 450).2 "ip" = demoLimits "ip"
    ∧ qsWait (querySource demoState 0 "s1" "a" "email" (Except.ok demoData))
      = some 0 := by
  have h := rate_limit_spacing
  have h1 := h.1 demoLimits "dns" 100 450 (by decide)
  exact ⟨h1.1, h1.2.2.2 "ip" (by decide),
    h.2 demoState 0 "s1" "a" "email" (Except.ok demoData) demoSource
      (by rfl) rfl rfl⟩

/-- C6: under maxRetries = 3, a wrapped fetch that fails on its first
two invocations and succeeds on the third returns the success result
with exactly 3 invocations and a cumulative wait of
1000*1 + 1000*2 ms (which is at least backoffBase*(1+2) for the
backoff base of 1000 ms); if the third invocation also fails, that last
failure is re-raised after the same 3 invocations. -/
theorem retry_two_failures_then_success :
    ∀ (α : Type) (f : Nat → Except String α) (e0 e1 : String),
      f 0 = Except.error e0 → f 1 = Except.error e1 →
      ((∀ a : α, f 2 = Except.ok a →
          fetchWithRetry f 3 = (some (Except.ok a), 3, 1000 * 1 + 1000 * 2))
       ∧ (∀ e2 : String, f 2 = Except.error e2 →
          fetchWithRetry f 3 = (some (Except.error e2), 3, 1000 * 1 + 1000 * 2))
       ∧ 1000 * 1 + 1000 * 2 ≥ 1000 * (1 + 2)) := by
  intro α f e0 e1 h0 h1
  refine ⟨?_, ?_, by omega⟩
  · intro a h2
    simp [fetchWithRetry, retryGo, h0, h1, h2]
  · intro e2 h2
    simp [fetchWithRetry, retryGo, h0, h1, h2]

/-- C6 witness: a concrete function failing twice then returning 7. -/
theorem retry_two_failures_then_success_witness :
    fetchWithRetry (fun i => if i < 2 then Except.error "boom" else Except.ok 7) 3
      = (some (Except.ok 7), 3, 1000 * 1 + 1000 * 2) :=
  (retry_two_failures_then_success Nat
    (fun i => if i < 2 then Except.error "boom" else Except.ok 7)
    "boom" "boom" rfl rfl).1 7 rfl

/-- C10: validateIntelligence accepts exactly the non-null object values
whose collectionMethod property is truthy; non-objects are rejected with
reason Invalid data structure, and objects lacking the property are
rejected with reason Missing collection method. -/
theorem validateIntelligence_spec :
    ∀ data : JSValue,
      ((validateIntelligence data).valid = true
        ↔ (isObjectValue data = true
            ∧ truthy (getField data "collectionMethod") = true))
      ∧ (isObjectValue data = false →
          validateIntelligence data
            = { valid := false, reason := some "Invalid data structure" })
      ∧ (isObjectValue data = true →
          getField data "collectionMethod" = JSValue.vUndefined →
          validateIntelligence data
            = { valid := false, reason := some "Missing collection method" }) := by
  intro data
  cases data with
  | vNull => simp [validateIntelligence, truthy, typeofIsObject, isObjectValue]
  | vUndefined => simp [validateIntelligence, truthy, typeofIsObject, isObjectValue]
  | vBool b =>
    cases b <;> simp [validateIntelligence, truthy, typeofIsObject, isObjectValue]
  | vNum n => simp [validateIntelligence, truthy, typeofIsObject, isObjectValue]
  | vStr s => simp [validateIntelligence, truthy, typeofIsObject, isObjectValue]
  | vObj fields =>
    refine ⟨?_, ?_, ?_⟩
    · simp only [validateIntelligence, isObjectValue, getField]
      by_cases hcm :
          truthy ((List.lookup "collectionMethod" fields).getD JSValue.vUndefined) = true
      · simp only [hcm]
        simp [truthy, typeofIsObject]
      · rw [Bool.not_eq_true] at hcm
        simp only [hcm]
        simp [truthy, typeofIsObject]
    · intro hobj
      simp [isObjectValue] at hobj
    · intro hobj hund
      simp only [getField] at hund
      simp [validateIntelligence, truthy, typeofIsObject, getField, hund]

/-- C10 witness: an object with a truthy collectionMethod is valid, one
lacking the property is rejected for the missing method, and null is
rejected as an invalid structure. -/
theorem validateIntelligence_spec_witness :
    (validateIntelligence (JSValue.vObj
        [("collectionMethod", JSValue.vStr "DNS over HTTPS")])).valid = true
    ∧ validateIntelligence (JSValue.vObj [("found", JSValue.vBool true)])
      = { valid := false, reason := some "Missing collection method" }
    ∧ validateIntelligence JSValue.vNull
      = { valid := false, reason := some "Invalid data structure" } := by
  have h1 := validateIntelligence_spec
    (JSValue.vObj [("collectionMethod", JSValue.vStr "DNS over HTTPS")])
  have h2 := validateIntelligence_spec (JSValue.vObj [("found", JSValue.vBool true)])
  have h3 := validateIntelligence_spec JSValue.vNull
  exact ⟨h1.1.mpr ⟨rfl, rfl⟩, h2.2.2 rfl rfl, h3.2.1 rfl⟩
